import Mathlib

/-!
Shallow embedding of the IliganMart backend purchase and payment
subsystem (src/db.js).  The relational store is modelled as in-memory
lists of rows.  The NUMERIC(12,2) price and total columns are modelled
as exact rationals and the INTEGER stock and quantity columns as
integers; each HTTP handler becomes a pure function from a request body
and a store state to a response and a new store state, and a transaction
that rolls back returns the store unchanged.  Absent JSON fields are
modelled with Option, so that the JavaScript falsiness checks of the
handlers can be translated faithfully.
-/

namespace IliganMart

/-- Row of the products table (DDL in createUsersTable): SERIAL primary key,
user_id, name, description, NUMERIC(12,2) price, category, INTEGER stock with
no CHECK constraint, optional image_url. -/
structure Product where
  id : Int
  userId : Int
  name : String
  description : String
  price : ℚ
  category : String
  stock : Int
  imageUrl : Option String
  deriving DecidableEq

/-- Row of the orders table: SERIAL primary key, product_id, buyer_email,
INTEGER quantity, NUMERIC(12,2) total_price. -/
structure Order where
  id : Int
  productId : Int
  buyerEmail : String
  quantity : Int
  totalPrice : ℚ
  deriving DecidableEq

/-- Row of the users table, restricted to the columns the modelled handlers
read: SERIAL primary key, name, email, role. -/
structure User where
  id : Int
  name : String
  email : String
  role : String
  deriving DecidableEq

/-- The relational store.  nextProductId and nextOrderId model the SERIAL
sequences of the products and orders tables. -/
structure DB where
  users : List User
  products : List Product
  orders : List Order
  nextProductId : Int
  nextOrderId : Int
  deriving DecidableEq

/-- Body of a POST /api/purchase request; none models an absent field. -/
structure PurchaseReq where
  productId : Option Int
  buyerEmail : Option String
  quantity : Option Int
  deriving DecidableEq

/-- Outcome of the purchase handler: 400 Missing required fields,
404 Product not found, 400 Insufficient stock, or 201 with the created
order row and the remaining stock. -/
inductive PurchaseResult where
  | invalidInput
  | notFound
  | insufficientStock
  | created (order : Order) (remainingStock : Int)
  deriving DecidableEq

/-- Models the JavaScript expression Number(quantity || 1): an absent or
zero quantity becomes 1, any other number is kept. -/
def jsOr1 : Option Int → Int
  | none => 1
  | some n => if n = 0 then 1 else n

/-- Models the JavaScript String.prototype.trim: leading and trailing
whitespace characters are removed. -/
def trimStr (s : String) : String :=
  ⟨((s.data.dropWhile Char.isWhitespace).reverse.dropWhile Char.isWhitespace).reverse⟩

/-- Models the JavaScript String.prototype.toLowerCase on the ASCII range. -/
def toLowerStr (s : String) : String :=
  ⟨s.data.map Char.toLower⟩

/-- Models (buyerEmail || "").trim().toLowerCase(). -/
def normEmail (e : Option String) : String :=
  toLowerStr (trimStr (e.getD ""))

/-- Models SELECT id, price, stock FROM products WHERE id = $1 (the id column
is the primary key, so the first match is the row). -/
def findProduct (db : DB) (pid : Int) : Option Product :=
  db.products.find? fun p => p.id == pid

/-- The POST /api/purchase handler (src/db.js).  Validation uses the
JavaScript falsiness of productId, of the normalized email and of the
effective quantity; on success the product row is updated, one order row is
inserted and both are returned.  Every failure path rolls the transaction
back, so the store is returned unchanged.  The source computes the total as
Number(prod.price) * qty; since price is a NUMERIC(12,2) column this is
modelled as exact rational multiplication. -/
def purchase (req : PurchaseReq) (db : DB) : PurchaseResult × DB :=
  if req.productId.getD 0 = 0 ∨ normEmail req.buyerEmail = "" ∨ jsOr1 req.quantity ≤ 0 then
    (.invalidInput, db)
  else
    match findProduct db (req.productId.getD 0) with
    | none => (.notFound, db)
    | some prod =>
      if prod.stock < jsOr1 req.quantity then
        (.insufficientStock, db)
      else
        let qty := jsOr1 req.quantity
        let order : Order :=
          { id := db.nextOrderId
            productId := req.productId.getD 0
            buyerEmail := normEmail req.buyerEmail
            quantity := qty
            totalPrice := prod.price * (qty : ℚ) }
        (.created order (prod.stock - qty),
          { db with
            products := db.products.map fun x =>
              if x.id == req.productId.getD 0 then { x with stock := prod.stock - qty } else x
            orders := db.orders ++ [order]
            nextOrderId := db.nextOrderId + 1 })

/-- Runs a list of purchase requests one after another against the store.
The source serializes concurrent purchases of one product through the
SELECT ... FOR UPDATE row lock held until COMMIT or ROLLBACK, so any
interleaving of whole transactions is equivalent to a serial run. -/
def runPurchases (reqs : List PurchaseReq) (db : DB) : List PurchaseResult × DB :=
  match reqs with
  | [] => ([], db)
  | r :: rs =>
    let step := purchase r db
    let rest := runPurchases rs step.2
    (step.1 :: rest.1, rest.2)

/-- True exactly on successful purchase outcomes. -/
def isCreated : PurchaseResult → Bool
  | .created _ _ => true
  | _ => false

/-- True exactly on the Insufficient stock outcome. -/
def isInsufficient : PurchaseResult → Bool
  | .insufficientStock => true
  | _ => false

/-- Number of successful outcomes in a run. -/
def countCreated (rs : List PurchaseResult) : Nat :=
  rs.countP isCreated

/-- Number of Insufficient stock outcomes in a run. -/
def countInsufficient (rs : List PurchaseResult) : Nat :=
  rs.countP isInsufficient

/-- Every product row of the store has non-negative stock. -/
def stockNonneg (db : DB) : Prop :=
  ∀ p ∈ db.products, 0 ≤ p.stock

instance (db : DB) : Decidable (stockNonneg db) :=
  inferInstanceAs (Decidable (∀ p ∈ db.products, 0 ≤ p.stock))

/-- Body of a POST /api/seller/products request. -/
structure SellerProductReq where
  email : Option String
  name : Option String
  description : Option String
  price : Option ℚ
  category : Option String
  stock : Option Int
  imageUrl : Option String
  deriving DecidableEq

/-- Outcome of the seller product creation handler. -/
inductive CreateProductResult where
  | invalidInput
  | userNotFound
  | created (product : Product)
  deriving DecidableEq

/-- Models imageUrl || null: an absent or empty string becomes null. -/
def jsOrNull : Option String → Option String
  | some "" => none
  | x => x

/-- The POST /api/seller/products handler (src/db.js).  Validation requires a
non-empty normalized email, name, description and category and a present
price (price == null check, so a zero price passes); the stock field is not
validated and Number(stock || 0) is inserted as given, so a negative stock
input is stored unchanged. -/
def createProduct (req : SellerProductReq) (db : DB) : CreateProductResult × DB :=
  if normEmail req.email = "" ∨ req.name.getD "" = "" ∨ req.description.getD "" = "" ∨
      req.price = none ∨ req.category.getD "" = "" then
    (.invalidInput, db)
  else
    match db.users.find? (fun u =>
        u.email == normEmail req.email && (u.role == "seller" || u.role == "customer")) with
    | none => (.userNotFound, db)
    | some u =>
      let prod : Product :=
        { id := db.nextProductId
          userId := u.id
          name := req.name.getD ""
          description := req.description.getD ""
          price := req.price.getD 0
          category := req.category.getD ""
          stock := req.stock.getD 0
          imageUrl := jsOrNull req.imageUrl }
      (.created prod,
        { db with
          products := db.products ++ [prod]
          nextProductId := db.nextProductId + 1 })

/-- Configuration and provider behaviour seen by one payment request: the
PayPal client credentials, whether the token round trip succeeds, and the
status, success flag and payload of the order and capture round trips. -/
structure PayPalEnv where
  clientId : String
  clientSecret : String
  tokenOk : Bool
  orderOk : Bool
  orderStatus : Nat
  orderBody : String
  captureOk : Bool
  captureStatus : Nat
  captureBody : String
  deriving DecidableEq

/-- An HTTP response: status code and payload. -/
structure HttpResponse where
  status : Nat
  body : String
  deriving DecidableEq

/-- Result of a payment handler: the response sent and the number of network
round trips made to the provider (token acquisition plus order or capture). -/
structure PayOutcome where
  resp : HttpResponse
  netCalls : Nat
  deriving DecidableEq

/-- The POST /create-order handler (src/db.js).  The amount is
Number(req.body.amount); none models NaN from a missing or non-numeric
amount, which the check !amt || amt <= 0 rejects before the credentials
check and before any network round trip.  A token failure is thrown and
caught, producing a 500 after one round trip; otherwise the order round
trip response is passed through. -/
def createOrderHandler (env : PayPalEnv) (amount : Option ℚ) : PayOutcome :=
  match amount with
  | none => ⟨⟨400, "Invalid amount"⟩, 0⟩
  | some amt =>
    if amt ≤ 0 then ⟨⟨400, "Invalid amount"⟩, 0⟩
    else if env.clientId = "" ∨ env.clientSecret = "" then
      ⟨⟨500, "PayPal credentials not configured"⟩, 0⟩
    else if env.tokenOk then
      if env.orderOk then ⟨⟨200, env.orderBody⟩, 2⟩
      else ⟨⟨env.orderStatus, env.orderBody⟩, 2⟩
    else ⟨⟨500, "Create order failed"⟩, 1⟩

/-- The POST /capture-order handler (src/db.js): requires a truthy orderID,
then mirrors the create-order flow against the capture endpoint. -/
def captureOrderHandler (env : PayPalEnv) (orderID : Option String) : PayOutcome :=
  if orderID.getD "" = "" then ⟨⟨400, "orderID is required"⟩, 0⟩
  else if env.clientId = "" ∨ env.clientSecret = "" then
    ⟨⟨500, "PayPal credentials not configured"⟩, 0⟩
  else if env.tokenOk then
    if env.captureOk then ⟨⟨200, env.captureBody⟩, 2⟩
    else ⟨⟨env.captureStatus, env.captureBody⟩, 2⟩
  else ⟨⟨500, "Capture order failed"⟩, 1⟩

/-- Body of a payment request, carrying the fields either payment handler
reads. -/
structure PayRequestBody where
  amount : Option ℚ
  orderID : Option String
  deriving DecidableEq

/-- An HTTP request as the Express router sees it: the (rewritable) url and
the parsed body. -/
structure HttpRequest where
  url : String
  body : PayRequestBody
  deriving DecidableEq

/-- The route table for the two root payment handlers, as dispatched by
app router handle: the url selects the handler, which reads its field of
the body. -/
def routerHandle (env : PayPalEnv) (req : HttpRequest) : Option PayOutcome :=
  if req.url = "/create-order" then some (createOrderHandler env req.body.amount)
  else if req.url = "/capture-order" then some (captureOrderHandler env req.body.orderID)
  else none

/-- The POST /api/paypal/create-order alias: it rewrites req.url to
/create-order and redispatches the same request through the router. -/
def apiPaypalCreateOrder (env : PayPalEnv) (req : HttpRequest) : Option PayOutcome :=
  routerHandle env { req with url := "/create-order" }

/-- The POST /api/paypal/capture-order alias: it rewrites req.url to
/capture-order and redispatches the same request through the router. -/
def apiPaypalCaptureOrder (env : PayPalEnv) (req : HttpRequest) : Option PayOutcome :=
  routerHandle env { req with url := "/capture-order" }

/-- A sample product row used for concrete witnesses: id 1, price 100.00,
stock 5. -/
def sampleProduct : Product :=
  { id := 1, userId := 1, name := "Mat", description := "Woven mat",
    price := 100, category := "home", stock := 5, imageUrl := none }

/-- A sample store holding only sampleProduct. -/
def sampleDB : DB :=
  { users := [], products := [sampleProduct], orders := [],
    nextProductId := 2, nextOrderId := 1 }

/-- A sample seller user row. -/
def sellerUser : User :=
  { id := 1, name := "S", email := "s@x.com", role := "seller" }

/-- A sample store holding only sellerUser and no products. -/
def sellerDB : DB :=
  { users := [sellerUser], products := [], orders := [],
    nextProductId := 1, nextOrderId := 1 }

/-- A sample payment environment with configured credentials and a healthy
provider. -/
def samplePayEnv : PayPalEnv :=
  { clientId := "cid", clientSecret := "csec", tokenOk := true,
    orderOk := true, orderStatus := 422, orderBody := "order-json",
    captureOk := true, captureStatus := 422, captureBody := "capture-json" }

/-- The purchase handler never writes a negative stock: on success the new
stock is stock - qty with qty ≤ stock, and every failure path leaves the
store untouched. -/
lemma purchase_stockNonneg (req : PurchaseReq) (db : DB) (h : stockNonneg db) :
    stockNonneg (purchase req db).2 := by
  simp only [purchase]
  split
  · exact h
  split
  · exact h
  next prod heq =>
    split
    · exact h
    next hnlt =>
      intro x hx
      simp only [List.mem_map] at hx
      obtain ⟨a, ha, rfl⟩ := hx
      split
      · show 0 ≤ prod.stock - jsOr1 req.quantity
        omega
      · exact h a ha

/-- Seller product creation preserves non-negative stock when the requested
stock is non-negative (an absent stock defaults to 0). -/
lemma createProduct_stockNonneg (req : SellerProductReq) (db : DB) (h : stockNonneg db)
    (hs : 0 ≤ req.stock.getD 0) : stockNonneg (createProduct req db).2 := by
  unfold createProduct
  by_cases hvalid :
      normEmail req.email = "" ∨ req.name.getD "" = "" ∨ req.description.getD "" = "" ∨
        req.price = none ∨ req.category.getD "" = ""
  · rw [if_pos hvalid]
    exact h
  · rw [if_neg hvalid]
    cases hfind : db.users.find? (fun u =>
        u.email == normEmail req.email && (u.role == "seller" || u.role == "customer")) with
    | none => exact h
    | some u =>
      intro x hx
      simp only [List.mem_append, List.mem_singleton] at hx
      rcases hx with hx | rfl
      · exact h x hx
      · simpa using hs

lemma jsOr1_some_ne_zero {q : Int} (hq : q ≠ 0) : jsOr1 (some q) = q := by
  simp [jsOr1, hq]

/-- Characterization of the successful purchase branch: with a truthy
productId, a non-empty normalized email, a positive quantity and an
existing product with sufficient stock, the handler commits the stock
decrement, appends exactly one order row and returns it. -/
lemma purchase_ok_eq (db : DB) (req : PurchaseReq) (pid q : Int) (p : Product)
    (hpid : req.productId = some pid) (hpos : 0 < pid)
    (hem : normEmail req.buyerEmail ≠ "")
    (hq : req.quantity = some q) (hqpos : 0 < q)
    (hfind : findProduct db pid = some p)
    (hstock : q ≤ p.stock) :
    purchase req db =
      (.created
          { id := db.nextOrderId, productId := pid, buyerEmail := normEmail req.buyerEmail,
            quantity := q, totalPrice := p.price * (q : ℚ) }
          (p.stock - q),
        { db with
          products := db.products.map fun x =>
            if x.id == pid then { x with stock := p.stock - q } else x
          orders := db.orders ++
            [{ id := db.nextOrderId, productId := pid, buyerEmail := normEmail req.buyerEmail,
               quantity := q, totalPrice := p.price * (q : ℚ) }]
          nextOrderId := db.nextOrderId + 1 }) := by
  have hq0 : q ≠ 0 := by omega
  have hpid0 : ¬ pid = 0 := by omega
  have hqe : jsOr1 req.quantity = q := by rw [hq]; exact jsOr1_some_ne_zero hq0
  have hqle : ¬ jsOr1 req.quantity ≤ 0 := by omega
  have hnl : ¬ p.stock < jsOr1 req.quantity := by omega
  simp only [purchase, hpid, Option.getD_some, hqe, hpid0, hem, hqle, or_self,
    if_false, false_or, or_false, ite_false, hfind, hnl]
  rw [if_neg (by omega : ¬ q ≤ 0), if_neg (by omega : ¬ p.stock < q)]

/-- Characterization of the insufficient-stock branch: the handler rolls the
transaction back and returns the store unchanged. -/
lemma purchase_insufficient_eq (db : DB) (req : PurchaseReq) (pid q : Int) (p : Product)
    (hpid : req.productId = some pid) (hpos : 0 < pid)
    (hem : normEmail req.buyerEmail ≠ "")
    (hq : req.quantity = some q) (hqpos : 0 < q)
    (hfind : findProduct db pid = some p)
    (hstock : p.stock < q) :
    purchase req db = (.insufficientStock, db) := by
  have hq0 : q ≠ 0 := by omega
  have hpid0 : ¬ pid = 0 := by omega
  have hqe : jsOr1 req.quantity = q := by rw [hq]; exact jsOr1_some_ne_zero hq0
  have hqle : ¬ jsOr1 req.quantity ≤ 0 := by omega
  have hlt : p.stock < jsOr1 req.quantity := by omega
  simp only [purchase, hpid, Option.getD_some, hqe, hpid0, hem, hqle, or_self,
    if_false, false_or, or_false, ite_false, hfind, hlt]
  rw [if_neg (by omega : ¬ q ≤ 0), if_pos hstock]

lemma runPurchases_cons (r : PurchaseReq) (rs : List PurchaseReq) (db : DB) :
    runPurchases (r :: rs) db =
      ((purchase r db).1 :: (runPurchases rs (purchase r db).2).1,
        (runPurchases rs (purchase r db).2).2) := rfl

lemma countCreated_cons_created (o : Order) (n : Int) (l : List PurchaseResult) :
    countCreated (.created o n :: l) = countCreated l + 1 := by
  simp [countCreated, List.countP_cons, isCreated]

lemma countCreated_cons_insufficient (l : List PurchaseResult) :
    countCreated (.insufficientStock :: l) = countCreated l := by
  simp [countCreated, List.countP_cons, isCreated]

lemma countInsufficient_cons_created (o : Order) (n : Int) (l : List PurchaseResult) :
    countInsufficient (.created o n :: l) = countInsufficient l := by
  simp [countInsufficient, List.countP_cons, isInsufficient]

lemma countInsufficient_cons_insufficient (l : List PurchaseResult) :
    countInsufficient (.insufficientStock :: l) = countInsufficient l + 1 := by
  simp [countInsufficient, List.countP_cons, isInsufficient]

/-- Serial run of N identical purchase requests of quantity q against a store
holding one product with stock s: the number of successes is min N (s / q),
the other requests fail with insufficient stock, and the remaining stock is
s - q * min N (s / q). -/
lemma runPurchases_replicate (pid : Int) (em : String) (q : Nat)
    (hpos : 0 < pid) (hem : normEmail (some em) ≠ "") (hq : 0 < q) :
    ∀ (N : Nat) (db : DB) (p : Product),
      db.products = [p] → p.id = pid → ∀ s : Nat, p.stock = (s : Int) →
      countCreated (runPurchases (List.replicate N ⟨some pid, some em, some (q : Int)⟩) db).1
          = min N (s / q) ∧
      countInsufficient (runPurchases (List.replicate N ⟨some pid, some em, some (q : Int)⟩) db).1
          = N - min N (s / q) ∧
      ∃ p2, (runPurchases (List.replicate N ⟨some pid, some em, some (q : Int)⟩) db).2.products
            = [p2] ∧
        p2.id = pid ∧ p2.stock = ((s - q * min N (s / q) : Nat) : Int) := by
  intro N
  induction N with
  | zero =>
    intro db p hprod hid s hs
    refine ⟨by simp [runPurchases, countCreated], by simp [runPurchases, countInsufficient],
      p, by simpa [runPurchases] using hprod, hid, by simpa using hs⟩
  | succ N ih =>
    intro db p hprod hid s hs
    have hfind : findProduct db pid = some p := by
      simp [findProduct, hprod, hid]
    have hqi : (0 : Int) < (q : Int) := by exact_mod_cast hq
    rw [List.replicate_succ, runPurchases_cons]
    by_cases hcase : s < q
    · have hlt : p.stock < (q : Int) := by rw [hs]; exact_mod_cast hcase
      have hstep :=
        purchase_insufficient_eq db ⟨some pid, some em, some (q : Int)⟩ pid (q : Int) p
          rfl hpos hem rfl hqi hfind hlt
      rw [hstep]
      obtain ⟨h1, h2, p2, hp2, hpid2, hstock2⟩ := ih db p hprod hid s hs
      have hdiv0 : s / q = 0 := Nat.div_eq_of_lt hcase
      rw [hdiv0] at h1 h2 hstock2 ⊢
      simp only [Nat.min_zero] at h1 h2 hstock2 ⊢
      refine ⟨?_, ?_, p2, hp2, hpid2, ?_⟩
      · rw [countCreated_cons_insufficient]
        omega
      · rw [countInsufficient_cons_insufficient]
        omega
      · simpa using hstock2
    · have hle : q ≤ s := by omega
      have hstockle : (q : Int) ≤ p.stock := by rw [hs]; exact_mod_cast hle
      have hstep :=
        purchase_ok_eq db ⟨some pid, some em, some (q : Int)⟩ pid (q : Int) p
          rfl hpos hem rfl hqi hfind hstockle
      rw [hstep]
      set p2 : Product := { p with stock := p.stock - (q : Int) } with hp2def
      have hprods2 :
          (db.products.map fun x =>
            if x.id == pid then { x with stock := p.stock - (q : Int) } else x) = [p2] := by
        simp [hprod, hid, hp2def]
      have hs2 : p2.stock = ((s - q : Nat) : Int) := by
        simp only [hp2def]
        rw [hs]
        omega
      obtain ⟨h1, h2, p3, hp3, hpid3, hstock3⟩ :=
        ih (purchase ⟨some pid, some em, some (q : Int)⟩ db).2 p2
          (by rw [hstep]; exact hprods2) (by simpa [hp2def] using hid) (s - q) hs2
      rw [hstep] at h1 h2 hp3
      have hsq : s / q = (s - q) / q + 1 := Nat.div_eq_sub_div hq hle
      have hdle : (s - q) / q * q ≤ s - q := Nat.div_mul_le_self (s - q) q
      have hminsucc : min (N + 1) ((s - q) / q + 1) = min N ((s - q) / q) + 1 :=
        Nat.succ_min_succ N ((s - q) / q)
      have hmle : q * min N ((s - q) / q) ≤ s - q := by
        calc q * min N ((s - q) / q) ≤ q * ((s - q) / q) :=
              Nat.mul_le_mul_left q (Nat.min_le_right _ _)
          _ = (s - q) / q * q := Nat.mul_comm _ _
          _ ≤ s - q := hdle
      refine ⟨?_, ?_, p3, hp3, hpid3, ?_⟩
      · rw [countCreated_cons_created, hsq, hminsucc]
        omega
      · rw [countInsufficient_cons_created, hsq, hminsucc]
        omega
      · rw [hstock3]
        congr 1
        rw [hsq, hminsucc, Nat.mul_add, Nat.mul_one]
        omega

/-- Claim C1: for every purchase request whose productId references an
existing product (store ids are positive, as generated by the SERIAL primary
key), whose normalized buyer email is non-empty, and whose quantity q
satisfies 0 < q ≤ stock, the purchase succeeds, the returned remainingStock
equals stock - q, exactly one new Order row is appended, and that order
total equals price * q. -/
theorem purchase_success_spec (db : DB) (req : PurchaseReq) (pid q : Int) (p : Product)
    (hWF : ∀ x ∈ db.products, 0 < x.id)
    (hpid : req.productId = some pid)
    (hem : normEmail req.buyerEmail ≠ "")
    (hq : req.quantity = some q) (hqpos : 0 < q)
    (hfind : findProduct db pid = some p)
    (hstock : q ≤ p.stock) :
    ∃ o : Order,
      (purchase req db).1 = .created o (p.stock - q) ∧
      o.totalPrice = p.price * (q : ℚ) ∧
      (purchase req db).2.orders = db.orders ++ [o] := by
  have hfind2 : db.products.find? (fun x => x.id == pid) = some p := hfind
  have hpmem : p ∈ db.products := List.mem_of_find?_eq_some hfind2
  have hbeq := List.find?_some hfind2
  have hpeq : p.id = pid := by simpa using hbeq
  have hpos : 0 < pid := by
    have := hWF p hpmem
    omega
  have hstep := purchase_ok_eq db req pid q p hpid hpos hem hq hqpos hfind hstock
  exact ⟨_, by rw [hstep], rfl, by rw [hstep]⟩

/-- Claim C1 witness: a concrete valid purchase of quantity 2 against the
sample product with stock 5. -/
theorem purchase_success_spec_witness :
    ∃ o : Order,
      (purchase ⟨some 1, some "b@c.com", some 2⟩ sampleDB).1 =
        .created o (sampleProduct.stock - 2) ∧
      o.totalPrice = sampleProduct.price * ((2 : Int) : ℚ) ∧
      (purchase ⟨some 1, some "b@c.com", some 2⟩ sampleDB).2.orders =
        sampleDB.orders ++ [o] :=
  purchase_success_spec sampleDB ⟨some 1, some "b@c.com", some 2⟩ 1 2 sampleProduct
    (by decide) rfl (by decide) rfl (by decide) (by decide) (by decide)

/-- Claim C2: launching N purchases of quantity q each against a product
with stock S, where N * q > S, yields exactly S / q successes and
InsufficientStock for the rest; the final stock is S mod q, which is never
negative.  The FOR UPDATE row lock of the source serializes the concurrent
transactions, so every interleaving is modelled by the serial run. -/
theorem purchase_concurrency_spec (db : DB) (p : Product) (pid : Int) (em : String)
    (S q N : Nat)
    (hprod : db.products = [p]) (hid : p.id = pid) (hpos : 0 < pid)
    (hstock : p.stock = (S : Int))
    (hem : normEmail (some em) ≠ "")
    (hq : 0 < q) (hover : S < N * q) :
    countCreated (runPurchases (List.replicate N ⟨some pid, some em, some (q : Int)⟩) db).1
        = S / q ∧
    countInsufficient (runPurchases (List.replicate N ⟨some pid, some em, some (q : Int)⟩) db).1
        = N - S / q ∧
    ∃ p2, (runPurchases (List.replicate N ⟨some pid, some em, some (q : Int)⟩) db).2.products
          = [p2] ∧
      p2.id = pid ∧ p2.stock = ((S % q : Nat) : Int) ∧ 0 ≤ p2.stock := by
  obtain ⟨h1, h2, p2, hp2, hpid2, hstock2⟩ :=
    runPurchases_replicate pid em q hpos hem hq N db p hprod hid S hstock
  have hlt : S / q < N := (Nat.div_lt_iff_lt_mul hq).mpr hover
  have hmin : min N (S / q) = S / q := min_eq_right (le_of_lt hlt)
  rw [hmin] at h1 h2 hstock2
  have hmod : S - q * (S / q) = S % q := by
    have hdm := Nat.div_add_mod S q
    omega
  rw [hmod] at hstock2
  refine ⟨h1, h2, p2, hp2, hpid2, hstock2, ?_⟩
  rw [hstock2]
  exact Int.natCast_nonneg _

/-- Claim C2 witness: three purchases of quantity 2 against stock 5 give
two successes, one InsufficientStock, and final stock 1. -/
theorem purchase_concurrency_spec_witness :
    countCreated
        (runPurchases (List.replicate 3 ⟨some 1, some "b@c.com", some ((2 : Nat) : Int)⟩)
          sampleDB).1 = 5 / 2 ∧
    countInsufficient
        (runPurchases (List.replicate 3 ⟨some 1, some "b@c.com", some ((2 : Nat) : Int)⟩)
          sampleDB).1 = 3 - 5 / 2 ∧
    ∃ p2,
      (runPurchases (List.replicate 3 ⟨some 1, some "b@c.com", some ((2 : Nat) : Int)⟩)
          sampleDB).2.products = [p2] ∧
      p2.id = 1 ∧ p2.stock = ((5 % 2 : Nat) : Int) ∧ 0 ≤ p2.stock :=
  purchase_concurrency_spec sampleDB sampleProduct 1 "b@c.com" 5 2 3
    rfl rfl (by decide) (by decide) (by decide) (by decide) (by decide)

/-- Claim C3 counterexample: a request against an existing product with
quantity 9 greater than the stock 5 but with an empty buyer email fails
with InvalidInput, not InsufficientStock, so the claim as stated (for
every such request) is false. -/
theorem purchase_insufficient_counterexample :
    findProduct sampleDB 1 = some sampleProduct ∧
    sampleProduct.stock < 9 ∧
    purchase ⟨some 1, some "", some 9⟩ sampleDB = (.invalidInput, sampleDB) ∧
    PurchaseResult.invalidInput ≠ PurchaseResult.insufficientStock := by decide

/-- Claim C3 (amended): for every purchase request that passes input
validation (non-empty normalized buyer email, positive quantity) against an
existing product (positive id) with stock < quantity, the operation fails
with InsufficientStock and the store is returned exactly unchanged. -/
theorem purchase_insufficient_spec (db : DB) (req : PurchaseReq) (pid q : Int) (p : Product)
    (hWF : ∀ x ∈ db.products, 0 < x.id)
    (hpid : req.productId = some pid)
    (hem : normEmail req.buyerEmail ≠ "")
    (hq : req.quantity = some q) (hqpos : 0 < q)
    (hfind : findProduct db pid = some p)
    (hstock : p.stock < q) :
    purchase req db = (.insufficientStock, db) := by
  have hfind2 : db.products.find? (fun x => x.id == pid) = some p := hfind
  have hpmem : p ∈ db.products := List.mem_of_find?_eq_some hfind2
  have hbeq := List.find?_some hfind2
  have hpeq : p.id = pid := by simpa using hbeq
  have hpos : 0 < pid := by
    have := hWF p hpmem
    omega
  exact purchase_insufficient_eq db req pid q p hpid hpos hem hq hqpos hfind hstock

/-- Claim C3 witness: quantity 9 against stock 5 with a valid email fails
with InsufficientStock and leaves the store unchanged. -/
theorem purchase_insufficient_spec_witness :
    purchase ⟨some 1, some "b@c.com", some 9⟩ sampleDB = (.insufficientStock, sampleDB) :=
  purchase_insufficient_spec sampleDB ⟨some 1, some "b@c.com", some 9⟩ 1 9 sampleProduct
    (by decide) rfl (by decide) rfl (by decide) (by decide) (by decide)

/-- Claim C4 counterexample: a purchase request whose quantity is zero is
not rejected: Number(quantity || 1) turns the zero into 1, the store is
read and mutated, and the purchase succeeds, so the claim that a zero (or
missing) quantity fails with InvalidInput before any store access is false. -/
theorem purchase_zero_quantity_counterexample :
    isCreated (purchase ⟨some 1, some "a@b.com", some 0⟩ sampleDB).1 = true ∧
    (purchase ⟨some 1, some "a@b.com", some 0⟩ sampleDB).1 ≠ PurchaseResult.invalidInput ∧
    (purchase ⟨some 1, some "a@b.com", some 0⟩ sampleDB).2.orders.length =
      sampleDB.orders.length + 1 := by decide

/-- Claim C4 (amended): a purchase request whose buyerEmail is empty or
missing after trimming, or whose quantity is provided and negative, fails
with InvalidInput and the store is returned untouched; a missing or zero
quantity instead defaults to 1 and is processed as a normal purchase. -/
theorem purchase_invalid_input_spec (req : PurchaseReq) (db : DB)
    (h : normEmail req.buyerEmail = "" ∨ ∃ n, req.quantity = some n ∧ n < 0) :
    purchase req db = (.invalidInput, db) := by
  have hcond :
      req.productId.getD 0 = 0 ∨ normEmail req.buyerEmail = "" ∨ jsOr1 req.quantity ≤ 0 := by
    rcases h with he | ⟨n, hn, hneg⟩
    · exact Or.inr (Or.inl he)
    · refine Or.inr (Or.inr ?_)
      rw [hn, jsOr1_some_ne_zero (by omega : n ≠ 0)]
      omega
  unfold purchase
  rw [if_pos hcond]

/-- Claim C4 witness: a request with a missing buyer email is rejected with
InvalidInput and no store change. -/
theorem purchase_invalid_input_spec_witness :
    purchase ⟨some 1, none, some 3⟩ sampleDB = (.invalidInput, sampleDB) :=
  purchase_invalid_input_spec ⟨some 1, none, some 3⟩ sampleDB (Or.inl (by decide))

/-- Claim C6 counterexample: the seller product creation handler performs no
validation of the stock field, so creating a product with stock -5 on a
store whose stocks are all non-negative yields a store with a negative
stock; the claim that every operation preserves stock ≥ 0 is false. -/
theorem stock_nonneg_counterexample :
    stockNonneg sellerDB ∧
    ¬ stockNonneg
        (createProduct
          ⟨some "s@x.com", some "Mat", some "d", some 10, some "home", some (-5), none⟩
          sellerDB).2 := by decide

/-- Claim C6 (amended): the purchase operation preserves non-negative stock
for every product in every store, and seller product creation preserves it
whenever the requested stock value is non-negative (a missing stock
defaults to 0); creation does not reject a negative stock input. -/
theorem stock_nonneg_spec :
    (∀ (req : PurchaseReq) (db : DB), stockNonneg db → stockNonneg (purchase req db).2) ∧
    (∀ (req : SellerProductReq) (db : DB), stockNonneg db → 0 ≤ req.stock.getD 0 →
      stockNonneg (createProduct req db).2) :=
  ⟨purchase_stockNonneg, createProduct_stockNonneg⟩

/-- Claim C6 witness: the invariant holds after a concrete purchase and
after a concrete product creation with non-negative stock. -/
theorem stock_nonneg_spec_witness :
    stockNonneg (purchase ⟨some 1, some "b@c.com", some 1⟩ sampleDB).2 ∧
    stockNonneg
      (createProduct ⟨some "s@x.com", some "Mat", some "d", some 10, some "home", some 3, none⟩
        sellerDB).2 :=
  ⟨stock_nonneg_spec.1 ⟨some 1, some "b@c.com", some 1⟩ sampleDB (by decide),
    stock_nonneg_spec.2 ⟨some "s@x.com", some "Mat", some "d", some 10, some "home", some 3, none⟩
      sellerDB (by decide) (by decide)⟩

/-- Claim C7 counterexample: a request whose productId references no
existing product but whose buyer email is empty fails with InvalidInput,
not NotFound, so the claim as stated (for every such request) is false. -/
theorem purchase_not_found_counterexample :
    findProduct sampleDB 99 = none ∧
    purchase ⟨some 99, some "", some 1⟩ sampleDB = (.invalidInput, sampleDB) ∧
    PurchaseResult.invalidInput ≠ PurchaseResult.notFound := by decide

/-- Claim C7 (amended): for every purchase request that passes input
validation (positive productId, non-empty normalized buyer email, positive
effective quantity) and whose productId references no existing product, the
operation fails with NotFound and the store is returned exactly unchanged
(no order row, no stock change). -/
theorem purchase_not_found_spec (db : DB) (req : PurchaseReq) (pid : Int)
    (hpid : req.productId = some pid) (hpos : 0 < pid)
    (hem : normEmail req.buyerEmail ≠ "")
    (hq : 0 < jsOr1 req.quantity)
    (hfind : findProduct db pid = none) :
    purchase req db = (.notFound, db) := by
  have hcond :
      ¬(req.productId.getD 0 = 0 ∨ normEmail req.buyerEmail = "" ∨ jsOr1 req.quantity ≤ 0) := by
    push_neg
    refine ⟨?_, hem, by omega⟩
    rw [hpid]
    simp only [Option.getD_some]
    omega
  unfold purchase
  rw [if_neg hcond]
  rw [hpid]
  simp only [Option.getD_some, hfind]

/-- Claim C7 witness: purchasing unknown product 42 (with a missing
quantity, which defaults to 1) fails with NotFound and no store change. -/
theorem purchase_not_found_spec_witness :
    purchase ⟨some 42, some "x@y.z", none⟩ sampleDB = (.notFound, sampleDB) :=
  purchase_not_found_spec sampleDB ⟨some 42, some "x@y.z", none⟩ 42
    rfl (by decide) (by decide) (by decide) (by decide)

/-- Claim C8: purchasing quantity 2 of the sample product (price 100.00,
stock 5) with buyerEmail " A@B.com " succeeds with order total 200.00,
remainingStock 3, and the stored buyer email trimmed and lower-cased to
a@b.com. -/
theorem purchase_example_spec :
    purchase ⟨some 1, some " A@B.com ", some 2⟩ sampleDB =
      (.created ⟨1, 1, "a@b.com", 2, 200⟩ 3,
        { users := [], products := [{ sampleProduct with stock := 3 }],
          orders := [⟨1, 1, "a@b.com", 2, 200⟩], nextProductId := 2, nextOrderId := 2 }) := by
  simp +decide [purchase, findProduct, jsOr1, sampleDB, sampleProduct]
  norm_num

/-- Claim C9: createPaymentOrder with a non-positive amount (or a
non-numeric amount, modelled as none) fails with the 400 Invalid amount
response and performs zero network round trips to the provider: neither
token acquisition nor order creation happens. -/
theorem create_order_invalid_amount_spec (env : PayPalEnv) (amt : Option ℚ)
    (h : ∀ a, amt = some a → a ≤ 0) :
    createOrderHandler env amt = ⟨⟨400, "Invalid amount"⟩, 0⟩ := by
  cases amt with
  | none => rfl
  | some a =>
    have ha : a ≤ 0 := h a rfl
    simp only [createOrderHandler]
    rw [if_pos ha]

/-- Claim C9 witness: amount -5 is rejected with no network call, for a
fully configured environment with a healthy provider. -/
theorem create_order_invalid_amount_spec_witness :
    createOrderHandler samplePayEnv (some (-5)) = ⟨⟨400, "Invalid amount"⟩, 0⟩ :=
  create_order_invalid_amount_spec samplePayEnv (some (-5))
    (fun a ha => by
      simp only [Option.some.injEq] at ha
      rw [← ha]
      norm_num)

/-- Claim C10: the /api/paypal aliases rewrite the request url and
redispatch through the router, producing exactly the response (and network
behaviour) of the root /create-order and /capture-order handlers on the
same request body, for every environment and request. -/
theorem paypal_alias_spec (env : PayPalEnv) (req : HttpRequest) :
    apiPaypalCreateOrder env req = some (createOrderHandler env req.body.amount) ∧
    apiPaypalCaptureOrder env req = some (captureOrderHandler env req.body.orderID) :=
  ⟨rfl, rfl⟩

end IliganMart
